import Mathlib

/-!
Verification of the BotEngine retrieval chatbot (Chat-Bot-App).

The development shallowly embeds the two `BotEngine` Python variants
(`app/BotEngine.py`, eager response-encoding build, and `src/BotEngine.py`,
lazy build) together with the helper `preprocess_sentences` of
`covid_bot.py`.  Embedding floating-point similarity scores as rationals:
every property proved here is about the order structure of the scores
(comparisons, maxima, argmax), which rationals share with the floats the
program manipulates.  The TensorFlow Universal Sentence Encoder is an
external collaborator; it is embedded as an abstract pair of fallible
encoder functions.  Python `assert`/`raise` failures are embedded as
`Except.error` values of the error taxonomy `BotError`.
-/

namespace ChatBot

/-- Error taxonomy. Each constructor stands for the exception the Python code
raises at the corresponding place: `configurationError` for the
`similarity_threshold` / `callable(preprocess_func)` assertion failures,
`dataSourceError` / `modelLoadError` for the path-existence assertions,
`unsupportedFormatError` for the `ValueError` of `__read_data`, and
`encodingError` for the answer/context length assertion and model
invocation failures. -/
inductive BotError where
  | configurationError
  | dataSourceError
  | modelLoadError
  | unsupportedFormatError
  | encodingError
deriving DecidableEq

/-- One row of `tf.reduce_sum(tf.multiply(v, w), axis=1)`: the dot product of
an answer-encoding row with the question encoding. -/
def dot (v w : List ℚ) : ℚ := (List.zipWith (fun a b => a * b) v w).sum

/-- The vector `cosine_similarity` computed in `get_response`: one dot product
per cached response encoding. -/
def scoresOf (cache : List (List ℚ)) (qv : List ℚ) : List ℚ :=
  cache.map (fun v => dot v qv)

/-- `tf.math.reduce_max` on a non-empty score vector (`0` on the empty vector,
on which the TensorFlow call errors out). -/
def listMax : List ℚ → ℚ
  | [] => 0
  | x :: xs => xs.foldl max x

/-- `tf.argmax`: the smallest index at which the score vector attains its
maximum (first occurrence, as computed by the TensorFlow CPU kernel). -/
def argmaxFirst (l : List ℚ) : Nat :=
  l.findIdx (fun x => decide (x = listMax l))

theorem le_foldl_max (xs : List ℚ) (a x : ℚ) (h : x ≤ a) : x ≤ xs.foldl max a := by
  induction xs generalizing a with
  | nil => simpa using h
  | cons y ys ih => exact ih (max a y) (le_trans h (le_max_left a y))

theorem mem_le_foldl_max (xs : List ℚ) (a x : ℚ) (h : x ∈ xs) : x ≤ xs.foldl max a := by
  induction xs generalizing a with
  | nil => cases h
  | cons y ys ih =>
    rcases List.mem_cons.mp h with rfl | h'
    · exact le_foldl_max ys (max a x) x (le_max_right a x)
    · exact ih (max a y) h'

theorem foldl_max_mem (xs : List ℚ) (a : ℚ) : xs.foldl max a ∈ a :: xs := by
  induction xs generalizing a with
  | nil => simp
  | cons y ys ih =>
    have hfold : List.foldl max a (y :: ys) = List.foldl max (max a y) ys := rfl
    rw [hfold]
    rcases List.mem_cons.mp (ih (max a y)) with h1 | h1
    · rw [h1]
      rcases max_choice a y with h2 | h2 <;> rw [h2]
      · exact List.mem_cons_self _ _
      · exact List.mem_cons_of_mem _ (List.mem_cons_self _ _)
    · exact List.mem_cons_of_mem _ (List.mem_cons_of_mem _ h1)

theorem argmaxFirst_cons_eq_zero (x : ℚ) (xs : List ℚ) (h : x = listMax (x :: xs)) :
    argmaxFirst (x :: xs) = 0 := by
  unfold argmaxFirst
  rw [List.findIdx_cons, decide_eq_true h]
  rfl

theorem listMax_mem (l : List ℚ) (h : l ≠ []) : listMax l ∈ l := by
  cases l with
  | nil => exact absurd rfl h
  | cons x xs => simpa [listMax] using foldl_max_mem xs x

theorem le_listMax (l : List ℚ) (x : ℚ) (h : x ∈ l) : x ≤ listMax l := by
  cases l with
  | nil => cases h
  | cons y ys =>
    rcases List.mem_cons.mp h with rfl | h'
    · exact le_foldl_max ys x x le_rfl
    · exact mem_le_foldl_max ys y x h'

theorem argmaxFirst_lt_length (l : List ℚ) (h : l ≠ []) : argmaxFirst l < l.length :=
  List.findIdx_lt_length_of_exists ⟨listMax l, listMax_mem l h, by simp⟩

theorem argmaxFirst_attains (l : List ℚ) (h : l ≠ []) :
    l.getD (argmaxFirst l) 0 = listMax l := by
  have hlt : List.findIdx (fun x => decide (x = listMax l)) l < l.length :=
    argmaxFirst_lt_length l h
  unfold argmaxFirst
  rw [List.getD_eq_getElem l 0 hlt]
  simpa using @List.findIdx_getElem ℚ (fun x => decide (x = listMax l)) l hlt

theorem argmaxFirst_minimal (l : List ℚ) (k : Nat) (hk : k < argmaxFirst l)
    (hkl : k < l.length) : l.getD k 0 ≠ listMax l := by
  have hk2 : k < List.findIdx (fun x => decide (x = listMax l)) l := hk
  have hfalse := List.not_of_lt_findIdx hk2
  rw [List.getD_eq_getElem l 0 hkl]
  simpa using hfalse

/-- The threshold/selection block at the end of `get_response`: compute the
score vector, compare its maximum against the threshold, and return either
`data.iloc[argmax]['Answer']` or the fallback string. -/
def select_response (answers : List String) (cache : List (List ℚ)) (qv : List ℚ)
    (t : ℚ) (fallback : String) : String :=
  let scores := scoresOf cache qv
  if listMax scores > t then answers.getD (argmaxFirst scores) "" else fallback

theorem scoresOf_ne_nil (cache : List (List ℚ)) (qv : List ℚ) (h : cache ≠ []) :
    scoresOf cache qv ≠ [] := by
  simpa [scoresOf] using h

theorem length_scoresOf (cache : List (List ℚ)) (qv : List ℚ) :
    (scoresOf cache qv).length = cache.length := by
  simp [scoresOf]

/-- C1: when the score vector has a maximum (non-empty knowledge base), the
response is the knowledge-base answer at the best index exactly when the
maximum score is strictly greater than the similarity threshold; whenever the
maximum is at most the threshold — in particular when it equals the threshold
exactly — the configured fallback message is returned instead. -/
theorem c1_threshold_decision (answers : List String) (cache : List (List ℚ))
    (qv : List ℚ) (t : ℚ) (fb : String) (hne : cache ≠ [])
    (hlen : answers.length = cache.length) :
    (listMax (scoresOf cache qv) > t →
      select_response answers cache qv t fb
        = answers.getD (argmaxFirst (scoresOf cache qv)) "" ∧
      argmaxFirst (scoresOf cache qv) < answers.length) ∧
    (listMax (scoresOf cache qv) ≤ t → select_response answers cache qv t fb = fb) ∧
    (listMax (scoresOf cache qv) = t → select_response answers cache qv t fb = fb) := by
  have hsne : scoresOf cache qv ≠ [] := scoresOf_ne_nil cache qv hne
  have hidx : argmaxFirst (scoresOf cache qv) < (scoresOf cache qv).length :=
    argmaxFirst_lt_length _ hsne
  refine ⟨fun hgt => ?_, fun hle => ?_, fun heq => ?_⟩
  · refine ⟨?_, ?_⟩
    · simp only [select_response]
      rw [if_pos hgt]
    · rw [hlen, ← length_scoresOf cache qv]
      exact hidx
  · simp only [select_response]
    rw [if_neg (not_lt.mpr hle)]
  · simp only [select_response]
    rw [if_neg (not_lt.mpr (le_of_eq heq))]

theorem c1_threshold_decision_witness :
    select_response ["a", "b"] [[2], [1]] [1] 0 "f" = "a" := by
  have hs : scoresOf [[2], [1]] [1] = [2, 1] := by
    norm_num [scoresOf, dot]
  have hmax : listMax (scoresOf [[2], [1]] [1]) = 2 := by
    rw [hs]
    norm_num [listMax, max_def]
  have h := (c1_threshold_decision ["a", "b"] [[2], [1]] [1] 0 "f"
    (List.cons_ne_nil _ _) rfl).1 (by rw [hmax]; norm_num)
  rw [h.1, hs, argmaxFirst_cons_eq_zero 2 [1] (by norm_num [listMax, max_def])]
  rfl

/-- C2: if two distinct indices `i < j` both attain the maximum score, the
index selected by `get_response` (via `tf.argmax`) is at most `i`, attains
the maximum, and no smaller index attains it: selection is deterministic and
the first (lowest) maximising index wins. -/
theorem c2_tie_break (cache : List (List ℚ)) (qv : List ℚ) (i j : Nat)
    (hij : i < j) (hj : j < (scoresOf cache qv).length)
    (hi : (scoresOf cache qv).getD i 0 = listMax (scoresOf cache qv))
    (hjm : (scoresOf cache qv).getD j 0 = listMax (scoresOf cache qv)) :
    argmaxFirst (scoresOf cache qv) ≤ i ∧
    (scoresOf cache qv).getD (argmaxFirst (scoresOf cache qv)) 0
      = listMax (scoresOf cache qv) ∧
    ∀ k, k < argmaxFirst (scoresOf cache qv) →
      (scoresOf cache qv).getD k 0 ≠ listMax (scoresOf cache qv) := by
  have hne : scoresOf cache qv ≠ [] := by
    intro hnil
    rw [hnil] at hj
    exact Nat.not_lt_zero j hj
  have hil : i < (scoresOf cache qv).length := lt_trans hij hj
  refine ⟨?_, argmaxFirst_attains _ hne, ?_⟩
  · by_contra hlt
    push_neg at hlt
    exact argmaxFirst_minimal _ i hlt hil hi
  · intro k hk
    exact argmaxFirst_minimal _ k hk
      (lt_trans hk (argmaxFirst_lt_length _ hne))

theorem c2_tie_break_witness : argmaxFirst (scoresOf [[1], [1]] [1]) ≤ 0 := by
  have hs : scoresOf [[1], [1]] [1] = [1, 1] := by
    norm_num [scoresOf, dot]
  have hmax : listMax (scoresOf [[1], [1]] [1]) = 1 := by
    rw [hs]
    norm_num [listMax, max_def]
  refine (c2_tie_break [[1], [1]] [1] 0 1 (by norm_num) ?_ ?_ ?_).1
  · rw [hs]
    norm_num
  · rw [hmax, hs]
    rfl
  · rw [hmax, hs]
    rfl

def covidChars : List Char := ['c', 'o', 'v', 'i', 'd']

def covid19Chars : List Char := ['c', 'o', 'v', 'i', 'd', '-', '1', '9']

def coronavirusChars : List Char := ['c', 'o', 'r', 'o', 'n', 'a', 'v', 'i', 'r', 'u', 's']

/-- Lowercasing used to compare against the lowercase pattern letters: the
effect of the `re.I` flag of `re.sub`. -/
def lcList (l : List Char) : List Char := l.map Char.toLower

/-- The left-to-right scan of `re.sub(r'(covid-19|covid)', 'coronavirus', s,
flags=re.I)`: at each position first try the alternative `covid-19`, then
`covid` (regex alternation order); on a match emit `coronavirus` and continue
after the matched text, otherwise keep the character and move one position.
The first argument is recursion fuel; `covidSub` passes the input length,
which bounds the number of scan steps. -/
def covidSubAux : Nat → List Char → List Char
  | 0, rest => rest
  | _ + 1, [] => []
  | fuel + 1, c :: cs =>
    if lcList (List.take 8 (c :: cs)) = covid19Chars then
      coronavirusChars ++ covidSubAux fuel (List.drop 8 (c :: cs))
    else if lcList (List.take 5 (c :: cs)) = covidChars then
      coronavirusChars ++ covidSubAux fuel (List.drop 5 (c :: cs))
    else c :: covidSubAux fuel cs

/-- The substitution applied to one sentence by `preprocess_sentences` /
`__preprocess_sentences`. -/
def covidSub (s : String) : String :=
  String.mk (covidSubAux s.toList.length s.toList)

/-- `preprocess_sentences` (`covid_bot.py`, and the identical built-in
`__preprocess_sentences` of `src/BotEngine.py`): the list comprehension
applying the substitution to every sentence. -/
def preprocess_sentences (l : List String) : List String := l.map covidSub

/-- Whether the text contains an occurrence of `covid` (case-insensitively);
an occurrence of `covid-19` always contains one. -/
def containsCovid : List Char → Bool
  | [] => false
  | c :: cs => decide (lcList (List.take 5 (c :: cs)) = covidChars) || containsCovid cs

theorem covidSubAux_of_not_contains :
    ∀ (fuel : Nat) (l : List Char), containsCovid l = false → covidSubAux fuel l = l := by
  intro fuel
  induction fuel with
  | zero => intro l _; rfl
  | succ n ih =>
    intro l hl
    cases l with
    | nil => rfl
    | cons c cs =>
      rw [containsCovid, Bool.or_eq_false_iff] at hl
      have hl5 : ¬ lcList (List.take 5 (c :: cs)) = covidChars :=
        of_decide_eq_false hl.1
      have hl8 : ¬ lcList (List.take 8 (c :: cs)) = covid19Chars := by
        intro h8
        apply hl5
        have e1 : lcList (List.take 5 (c :: cs))
            = List.take 5 (lcList (List.take 8 (c :: cs))) := by
          simp [lcList, List.map_take, List.take_take]
        rw [e1, h8]
        rfl
      rw [covidSubAux, if_neg hl8, if_neg hl5, ih cs hl.2]

theorem preprocess_length (l : List String) :
    (preprocess_sentences l).length = l.length := by
  simp [preprocess_sentences]

/-- C4: `preprocess_sentences` returns a list of the same length and order,
each case-insensitive occurrence of `covid-19` or `covid` is replaced by
`coronavirus` (`covid-19` consumed as a whole, so no trailing `-19` is left,
as the round-trip example shows), and a sentence without any such occurrence
is returned unchanged. -/
theorem c4_preprocess_covid :
    (∀ l : List String, (preprocess_sentences l).length = l.length) ∧
    preprocess_sentences ["I have COVID-19 symptoms"] = ["I have coronavirus symptoms"] ∧
    (∀ s : String, containsCovid s.toList = false → covidSub s = s) := by
  refine ⟨preprocess_length, by decide, fun s hs => ?_⟩
  unfold covidSub
  rw [covidSubAux_of_not_contains _ _ hs]
  rfl

theorem c4_preprocess_covid_witness : covidSub "hello" = "hello" :=
  c4_preprocess_covid.2.2 "hello" (by decide)

/-- The whitespace characters removed by Python `str.strip()` (the ASCII
whitespace class: space, tab, newline, carriage return, vertical tab, form
feed). -/
def isPySpace (c : Char) : Bool :=
  c == ' ' || c == '\t' || c == '\n' || c == '\r' || c == Char.ofNat 11 || c == Char.ofNat 12

/-- Python `str.strip()`: drop leading and trailing whitespace. -/
def pyStrip (s : String) : String :=
  String.mk (((s.toList.dropWhile isPySpace).reverse.dropWhile isPySpace).reverse)

/-- Python `str.lower()`. -/
def pyLower (s : String) : String := String.mk (s.toList.map Char.toLower)

/-- The action one iteration of `init_bot` takes on a line of input:
terminate the loop, print the help text (bypassing the engine), ignore the
line, or forward it to `get_response` and print the result after the bot
prompt. -/
inductive LoopAction where
  | exitLoop
  | showHelp (text : String)
  | skip
  | respond (question : String)
deriving DecidableEq

/-- One iteration of the `while True` loop of `init_bot`: the
`question.strip().lower()` comparisons against `exit`, `help` and the empty
string, in that order, with any other line forwarded verbatim (the raw,
unstripped line) to `get_response`. -/
def init_bot_step (helpText : String) (line : String) : LoopAction :=
  if pyLower (pyStrip line) = "exit" then .exitLoop
  else if pyLower (pyStrip line) = "help" then .showHelp helpText
  else if pyLower (pyStrip line) = "" then .skip
  else .respond line

/-- C9: a line whose stripped, lowercased form is `exit` terminates the loop;
`help` prints the configured help text and never reaches `get_response`;
an empty stripped line is ignored; any other line is forwarded verbatim to
`get_response`. -/
theorem c9_conversation_loop (helpText line : String) :
    (pyLower (pyStrip line) = "exit" → init_bot_step helpText line = .exitLoop) ∧
    (pyLower (pyStrip line) = "help" →
      init_bot_step helpText line = .showHelp helpText) ∧
    (pyLower (pyStrip line) = "" → init_bot_step helpText line = .skip) ∧
    (pyLower (pyStrip line) ≠ "exit" → pyLower (pyStrip line) ≠ "help" →
      pyLower (pyStrip line) ≠ "" →
      init_bot_step helpText line = .respond line) := by
  refine ⟨fun h => ?_, fun h => ?_, fun h => ?_, fun h1 h2 h3 => ?_⟩
  · unfold init_bot_step
    rw [h, if_pos rfl]
  · unfold init_bot_step
    rw [h, if_neg (by decide), if_pos rfl]
  · unfold init_bot_step
    rw [h, if_neg (by decide), if_neg (by decide), if_pos rfl]
  · unfold init_bot_step
    rw [if_neg h1, if_neg h2, if_neg h3]

theorem c9_conversation_loop_witness :
    init_bot_step "helpMsg" "  HELP  " = .showHelp "helpMsg" :=
  (c9_conversation_loop "helpMsg" "  HELP  ").2.1 (by decide)

/-- The two dispatch targets of `__read_data`: `pd.read_csv` and
`pd.read_excel`. -/
inductive DataFormat where
  | csv
  | excel
deriving DecidableEq

/-- Python `str.endswith`: plain suffix test on the character sequence. -/
def str_endswith (s suf : String) : Bool :=
  suf.toList.isSuffixOf s.toList

/-- `__read_data`: dispatch on `data_path.endswith('csv')`,
`data_path.endswith('xlsx')`, `data_path.endswith('xls')` (in that order,
note: suffix checks with no dot), else `raise ValueError('The data file
should be in CSV/Excel format')`. -/
def read_data (dataPath : String) : Except BotError DataFormat :=
  if str_endswith dataPath "csv" then .ok .csv
  else if str_endswith dataPath "xlsx" then .ok .excel
  else if str_endswith dataPath "xls" then .ok .excel
  else .error .unsupportedFormatError

/-- Modelled from the spec: the "file extension" of the spec's acceptance
rule (`accepted file extensions: .csv, .xlsx, .xls`) — the part of the file
name after the last dot, empty when there is no dot.  This definition exists
only to state the spec-side reading of the dispatch rule and compare it with
the suffix test the code performs. -/
def fileExt (p : String) : String :=
  if p.toList.contains '.' then
    String.mk ((p.toList.reverse.takeWhile (fun c => decide (c ≠ '.'))).reverse)
  else ""

/-- `self._default_response` of `src/BotEngine.py`. -/
def defaultResponseText : String := "Sorry, I don\x27t understand. Please try again."

/-- `self._UNKNOWN_ANSWER_` of `app/BotEngine.py`. -/
def unknownAnswerText : String :=
  "Sorry, I don\x27t understand. Could you ask questions related to Covid-19"

/-- The persistent fields of a `src/BotEngine.py` instance.  `answers` and
`contexts` are the `Answer` and `Context` columns of the loaded dataframe;
`responseEncodings` is the `response_encodings` field, `None` until the lazy
build performed by the first `get_response` call. -/
structure Engine where
  answers : List String
  contexts : List String
  threshold : ℚ
  helpText : String
  botPrompt : String
  userPrompt : String
  responseEncodings : Option (List (List ℚ))
  defaultResponse : String

/-- The external Universal Sentence Encoder: the `response_encoder` and
`question_encoder` signatures of the loaded SavedModel, as fallible
black-box functions (a raised exception is an `Except.error`). -/
structure UseModel where
  responseEncoder : List String → List String → Except BotError (List (List ℚ))
  questionEncoder : List String → Except BotError (List (List ℚ))

/-- A concrete stand-in encoder pair (one unit vector per input sentence),
used to instantiate closed statements. -/
def trivialModel : UseModel :=
  ⟨fun a _ => .ok (a.map (fun _ => [1])), fun qs => .ok (qs.map (fun _ => [1]))⟩

/-- `__generate_response_encodings` of `src/BotEngine.py`: assert that the
answer and context columns have equal length (`AssertionError` is the
encoding error of the taxonomy), preprocess both columns with the built-in
substitution, and invoke the response encoder in one batched call; an
encoder exception is logged and re-raised.  The computed encodings are
returned to the caller, which stores them into `response_encodings` — on an
error that assignment never executes. -/
def generate_response_encodings (m : UseModel) (ansText contextText : List String) :
    Except BotError (List (List ℚ)) :=
  if ansText.length ≠ contextText.length then .error .encodingError
  else m.responseEncoder (preprocess_sentences ansText) (preprocess_sentences contextText)

/-- `__get_question_encodings` of `src/BotEngine.py`: wrap the single
question into a one-element list, preprocess it, and invoke the question
encoder; an encoder exception is logged and re-raised. -/
def get_question_encodings (m : UseModel) (question : String) :
    Except BotError (List (List ℚ)) :=
  m.questionEncoder (preprocess_sentences [question])

/-- The scoring part of `get_response` once the cache is available: encode
the question, score every cached row against the (single) question vector,
and apply the threshold decision; the `src/BotEngine.py` fallback string is
`f'{self._default_response}\n {self.help_text}'`. -/
def respond_with (m : UseModel) (e : Engine) (cache : List (List ℚ))
    (question : String) : Except BotError String :=
  match get_question_encodings m question with
  | .error err => .error err
  | .ok qencs =>
      .ok (select_response e.answers cache (qencs.headD [])
            e.threshold (e.defaultResponse ++ "\n " ++ e.helpText))

/-- `get_response` of `src/BotEngine.py`: build the response-encoding cache
on first use (`if self.response_encodings is None`), then score the question
against the cache.  The second component is the engine state after the call;
on a failed build the state is the unchanged input state. -/
def get_response (m : UseModel) (e : Engine) (question : String) :
    Except BotError String × Engine :=
  match e.responseEncodings with
  | none =>
      match generate_response_encodings m e.answers e.contexts with
      | .error err => (.error err, e)
      | .ok encs =>
          (respond_with m { e with responseEncodings := some encs } encs question,
           { e with responseEncodings := some encs })
  | some cache => (respond_with m e cache question, e)

/-- `BotEngine.__init__` of `src/BotEngine.py`: the four `assert` statements
in source order (data path exists, model path exists, `saved_model.pb`
exists, threshold strictly between −1 and 1), then `__read_data` dispatches
on the file suffix, then the SavedModel is loaded.  The external conditions
(path existence, model loadability) enter as boolean parameters and the
parsed `Answer` / `Context` columns as lists; each failed assertion or
raised exception is the corresponding `BotError`. -/
def initEngine (dataExists modelExists pbExists modelLoadOk : Bool)
    (dataPath : String) (fileAnswers fileContexts : List String)
    (helpText botPrompt userPrompt : String) (t : ℚ) : Except BotError Engine :=
  if dataExists = false then .error .dataSourceError
  else if modelExists = false then .error .modelLoadError
  else if pbExists = false then .error .modelLoadError
  else if ¬ (t > -1 ∧ t < 1) then .error .configurationError
  else
    match read_data dataPath with
    | .error err => .error err
    | .ok _ =>
        if modelLoadOk = false then .error .modelLoadError
        else .ok {
          answers := fileAnswers
          contexts := fileContexts
          threshold := t
          helpText := helpText
          botPrompt := botPrompt
          userPrompt := userPrompt
          responseEncodings := none
          defaultResponse := defaultResponseText }

/-- An `app/BotEngine.py` instance: same fields, but the response encodings
are built eagerly during construction and the field is never `None`. -/
structure EngineApp where
  answers : List String
  contexts : List String
  threshold : ℚ
  helpText : String
  botPrompt : String
  userPrompt : String
  response_encodings : List (List ℚ)

/-- `BotEngine.__init__` of `app/BotEngine.py`: the same assertions followed
by `assert callable(self.__preprocess_sentences)` — the default
`preprocess_func=None` is not callable, so that assertion fails — then
`__read_data`, the model load, and the eager
`__generate_response_encodings` call (length assertion, the injected
preprocess function applied to both columns, one batched encoder
invocation) whose result is stored before construction completes. -/
def initEngineApp (dataExists modelExists pbExists modelLoadOk : Bool)
    (dataPath : String) (preprocessFunc : Option (List String → List String))
    (m : UseModel) (fileAnswers fileContexts : List String)
    (helpText botPrompt userPrompt : String) (t : ℚ) : Except BotError EngineApp :=
  if dataExists = false then .error .dataSourceError
  else if modelExists = false then .error .modelLoadError
  else if pbExists = false then .error .modelLoadError
  else if ¬ (t > -1 ∧ t < 1) then .error .configurationError
  else
    match preprocessFunc with
    | none => .error .configurationError
    | some f =>
        match read_data dataPath with
        | .error err => .error err
        | .ok _ =>
            if modelLoadOk = false then .error .modelLoadError
            else if fileAnswers.length ≠ fileContexts.length then .error .encodingError
            else
              match m.responseEncoder (f fileAnswers) (f fileContexts) with
              | .error err => .error err
              | .ok encs => .ok {
                  answers := fileAnswers
                  contexts := fileContexts
                  threshold := t
                  helpText := helpText
                  botPrompt := botPrompt
                  userPrompt := userPrompt
                  response_encodings := encs }

/-- C3: with valid paths and a readable knowledge-base file, construction
succeeds for every threshold strictly inside `(-1, 1)`; for every threshold
`t ≤ -1` or `t ≥ 1` the threshold assertion fails with the configuration
error before any engine is produced, whatever the model-load outcome. -/
theorem c3_threshold_validation (dataPath : String)
    (fileAnswers fileContexts : List String)
    (helpText botPrompt userPrompt : String) (t : ℚ)
    (hread : ∃ fmt, read_data dataPath = .ok fmt) :
    ((-1 < t ∧ t < 1) → ∃ eng,
      initEngine true true true true dataPath fileAnswers fileContexts
        helpText botPrompt userPrompt t = .ok eng) ∧
    ((t ≤ -1 ∨ 1 ≤ t) → ∀ modelLoadOk : Bool,
      initEngine true true true modelLoadOk dataPath fileAnswers fileContexts
        helpText botPrompt userPrompt t = .error .configurationError) := by
  obtain ⟨fmt, hfmt⟩ := hread
  constructor
  · rintro ⟨h1, h2⟩
    simp [initEngine, hfmt, h1, h2]
  · intro h modelLoadOk
    have hc : ¬ (t > -1 ∧ t < 1) := by
      rintro ⟨hg, hl⟩
      rcases h with h | h
      · exact absurd hg (not_lt.mpr h)
      · exact absurd hl (not_lt.mpr h)
    simp [initEngine, hc]

theorem c3_threshold_validation_witness :
    ∃ eng, initEngine true true true true "WHO_FAQ.xlsx" [] [] "h" "b" "u" 0 = .ok eng :=
  (c3_threshold_validation "WHO_FAQ.xlsx" [] [] "h" "b" "u" 0
    ⟨DataFormat.excel, rfl⟩).1 (by norm_num)

/-- C5 fails on the app variant: constructing with the preprocessing argument
left at its default (`preprocess_func=None`) does not succeed with an
identity or substitution default — the `callable(preprocess_func)` assertion
fails (the configuration error), even though every other input is valid. -/
theorem c5_counterexample :
    initEngineApp true true true true "WHO_FAQ.xlsx" none trivialModel
      [] [] "h" "b" "u" (1 / 10) = .error .configurationError := by
  norm_num [initEngineApp]

/-- C5 amended: when no preprocessing function is supplied, app-variant
construction fails with the configuration error (the `callable` assertion);
construction succeeds precisely when a preprocessing function is supplied
(given valid paths, a readable file, matching column lengths and a
successful encoder). -/
theorem c5_preprocess_required (dataPath : String) (m : UseModel)
    (fileAnswers fileContexts : List String)
    (helpText botPrompt userPrompt : String) (t : ℚ)
    (hvalid : -1 < t ∧ t < 1) (hread : ∃ fmt, read_data dataPath = .ok fmt)
    (hlen : fileAnswers.length = fileContexts.length)
    (henc : ∀ a c, ∃ r, m.responseEncoder a c = .ok r) :
    initEngineApp true true true true dataPath none m fileAnswers fileContexts
      helpText botPrompt userPrompt t = .error .configurationError ∧
    ∀ f : List String → List String, ∃ eng,
      initEngineApp true true true true dataPath (some f) m fileAnswers fileContexts
        helpText botPrompt userPrompt t = .ok eng := by
  obtain ⟨fmt, hfmt⟩ := hread
  constructor
  · simp [initEngineApp, hvalid.1, hvalid.2]
  · intro f
    obtain ⟨r, hr⟩ := henc (f fileAnswers) (f fileContexts)
    simp [initEngineApp, hfmt, hvalid.1, hvalid.2, hlen, hr]

theorem c5_preprocess_required_witness :
    ∃ eng, initEngineApp true true true true "WHO_FAQ.xlsx" (some id) trivialModel
      [] [] "h" "b" "u" (1 / 10) = .ok eng :=
  (c5_preprocess_required "WHO_FAQ.xlsx" trivialModel [] [] "h" "b" "u" (1 / 10)
    ⟨by norm_num, by norm_num⟩ ⟨DataFormat.excel, rfl⟩ rfl
    (fun a c => ⟨_, rfl⟩)).2 id

/-- C6: (a) a successful response-encoding build yields exactly one vector
per knowledge-base entry (preprocessing preserves length and the batched
encoder returns one vector per input); (b) once `response_encodings` is set,
`get_response` returns the engine state unchanged and behaves identically
for any model that agrees on the question encoder — the cached vectors are
reused and the response encoder is never re-invoked; (c) the eagerly built
app-variant cache also has one vector per entry. -/
theorem c6_cache_built_once (m : UseModel) (e : Engine)
    (hlen : ∀ a c r, m.responseEncoder a c = .ok r → r.length = a.length) :
    (∀ encs, generate_response_encodings m e.answers e.contexts = .ok encs →
      encs.length = e.answers.length) ∧
    (∀ cache question, e.responseEncodings = some cache →
      (get_response m e question).2 = e ∧
      ∀ m2 : UseModel, m2.questionEncoder = m.questionEncoder →
        get_response m2 e question = get_response m e question) ∧
    (∀ (dataPath : String) (f : List String → List String)
        (fileAnswers fileContexts : List String)
        (helpText botPrompt userPrompt : String) (t : ℚ) (eng : EngineApp),
      (∀ l, (f l).length = l.length) →
      initEngineApp true true true true dataPath (some f) m fileAnswers
        fileContexts helpText botPrompt userPrompt t = .ok eng →
      eng.response_encodings.length = fileAnswers.length) := by
  refine ⟨fun encs h => ?_, fun cache question hc => ⟨?_, fun m2 hm2 => ?_⟩,
    fun dataPath f fileAnswers fileContexts helpText botPrompt userPrompt t eng hf h => ?_⟩
  · unfold generate_response_encodings at h
    split at h
    · exact absurd h (by simp)
    · rw [hlen _ _ _ h, preprocess_length]
  · simp [get_response, hc]
  · simp [get_response, hc, respond_with, get_question_encodings, hm2]
  · simp only [initEngineApp] at h
    split at h
    · exact absurd h (by simp)
    · split at h
      · exact absurd h (by simp)
      · split at h
        · exact absurd h (by simp)
        · split at h
          · exact absurd h (by simp)
          · split at h
            · exact absurd h (by simp)
            · cases h
              rw [hlen _ _ _ (by assumption), hf]

theorem c6_cache_built_once_witness :
    (get_response trivialModel
      { answers := ["a"], contexts := ["c"], threshold := 0, helpText := "h",
        botPrompt := "b", userPrompt := "u", responseEncodings := some [[1]],
        defaultResponse := "d" } "q").2
    = { answers := ["a"], contexts := ["c"], threshold := 0, helpText := "h",
        botPrompt := "b", userPrompt := "u", responseEncodings := some [[1]],
        defaultResponse := "d" } :=
  ((c6_cache_built_once trivialModel _
    (fun a c r h => by cases h; simp)).2.1 [[1]] "q" rfl).1

/-- C7: with the cache built, a question-encoding failure propagates out of
`get_response` unchanged (never converted into the fallback answer), and on
encoder success the returned answer is exactly the threshold decision of
`select_response` — so the fallback message arises only from the threshold
comparison. -/
theorem c7_encoding_error_propagates (m : UseModel) (e : Engine)
    (question : String) (cache : List (List ℚ))
    (hc : e.responseEncodings = some cache) :
    (∀ err, m.questionEncoder (preprocess_sentences [question]) = .error err →
      get_response m e question = (.error err, e)) ∧
    (∀ qencs, m.questionEncoder (preprocess_sentences [question]) = .ok qencs →
      get_response m e question =
        (.ok (select_response e.answers cache (qencs.headD [])
          e.threshold (e.defaultResponse ++ "\n " ++ e.helpText)), e)) := by
  constructor <;> intro x hx <;>
    simp [get_response, hc, respond_with, get_question_encodings, hx]

theorem c7_encoding_error_propagates_witness :
    get_response ⟨fun a _ => .ok (a.map (fun _ => [1])), fun _ => .error .encodingError⟩
      { answers := ["a"], contexts := ["c"], threshold := 0, helpText := "h",
        botPrompt := "b", userPrompt := "u", responseEncodings := some [[1]],
        defaultResponse := "d" } "q"
    = (.error .encodingError,
      { answers := ["a"], contexts := ["c"], threshold := 0, helpText := "h",
        botPrompt := "b", userPrompt := "u", responseEncodings := some [[1]],
        defaultResponse := "d" }) :=
  (c7_encoding_error_propagates _ _ "q" [[1]] rfl).1 .encodingError rfl

/-- C8 as stated is refuted: `__read_data` tests `endswith('csv')` with no
dot, so the path `data.mycsv` — whose extension `mycsv` is none of `csv`,
`xlsx`, `xls` — is dispatched to the CSV reader instead of failing. -/
theorem c8_counterexample :
    read_data "data.mycsv" = .ok .csv ∧
    fileExt "data.mycsv" ≠ "csv" ∧ fileExt "data.mycsv" ≠ "xlsx" ∧
    fileExt "data.mycsv" ≠ "xls" ∧ fileExt "data.mycsv" = "mycsv" := by
  refine ⟨rfl, ?_, ?_, ?_, ?_⟩ <;> decide

/-- C8 amended: the dispatch is by file-name suffix, with no dot required: a
path ending in `csv` goes to the CSV reader; otherwise one ending in `xlsx`
or `xls` goes to the Excel reader; any other path (for example one ending in
`.txt`) raises the unsupported-format error, and a failed read aborts
construction with that error so no engine is produced. -/
theorem c8_suffix_dispatch (p : String) :
    (str_endswith p "csv" = true → read_data p = .ok .csv) ∧
    (str_endswith p "csv" = false → str_endswith p "xlsx" = true →
      read_data p = .ok .excel) ∧
    (str_endswith p "csv" = false → str_endswith p "xlsx" = false →
      str_endswith p "xls" = true → read_data p = .ok .excel) ∧
    (str_endswith p "csv" = false → str_endswith p "xlsx" = false →
      str_endswith p "xls" = false →
      read_data p = .error .unsupportedFormatError) ∧
    (∀ (err : BotError) (fileAnswers fileContexts : List String)
        (helpText botPrompt userPrompt : String) (t : ℚ) (lo : Bool),
      read_data p = .error err → -1 < t → t < 1 →
      initEngine true true true lo p fileAnswers fileContexts
        helpText botPrompt userPrompt t = .error err) := by
  refine ⟨fun h1 => ?_, fun h1 h2 => ?_, fun h1 h2 h3 => ?_, fun h1 h2 h3 => ?_,
    fun err fa fc ht bp up t lo hrd ht1 ht2 => ?_⟩
  · unfold read_data
    rw [if_pos h1]
  · unfold read_data
    rw [if_neg (by simp [h1]), if_pos h2]
  · unfold read_data
    rw [if_neg (by simp [h1]), if_neg (by simp [h2]), if_pos h3]
  · unfold read_data
    rw [if_neg (by simp [h1]), if_neg (by simp [h2]), if_neg (by simp [h3])]
  · simp [initEngine, hrd, ht1, ht2]

theorem c8_suffix_dispatch_witness :
    read_data "f.txt" = .error .unsupportedFormatError :=
  (c8_suffix_dispatch "f.txt").2.2.2.1 rfl rfl rfl

/-- C10: in the lazily built variant, when the response-encoding build
invoked inside `get_response` fails, the error propagates and the engine
state is returned unchanged — `response_encodings` is still `None`, so the
next `get_response` call attempts the build again. -/
theorem c10_failed_build_state_unchanged (m : UseModel) (e : Engine)
    (question : String) (err : BotError)
    (hnone : e.responseEncodings = none)
    (hfail : generate_response_encodings m e.answers e.contexts = .error err) :
    get_response m e question = (.error err, e) ∧
    (get_response m e question).2.responseEncodings = none := by
  have h1 : get_response m e question = (.error err, e) := by
    simp [get_response, hnone, hfail]
  exact ⟨h1, by rw [h1]; exact hnone⟩

theorem c10_failed_build_state_unchanged_witness :
    get_response trivialModel
      { answers := ["a"], contexts := [], threshold := 0, helpText := "h",
        botPrompt := "b", userPrompt := "u", responseEncodings := none,
        defaultResponse := "d" } "q"
    = (.error .encodingError,
      { answers := ["a"], contexts := [], threshold := 0, helpText := "h",
        botPrompt := "b", userPrompt := "u", responseEncodings := none,
        defaultResponse := "d" }) :=
  (c10_failed_build_state_unchanged trivialModel _ "q" .encodingError rfl
    (by simp [generate_response_encodings])).1

end ChatBot
